import Mathlib

/-!
Verification of the tomato smart-farm API client library and its
Swagger proxy/docs server.

The development embeds the two source files:
* `tomatoApi.js` (proxy/docs server): the three typed proxy handlers
  (`POST /proxy/capture-analyze`, `POST /proxy/disease-diagnosis`,
  `POST /proxy/chat-message`) and the generic `ALL /proxy/*` handler.
* the client library module: endpoint wrapper functions, the
  `fileToBase64` helper, and the inert `setBaseUrl` mutator.

JSON values are modelled by an inductive `Json` type; a handler is a
function from its parsed inputs and a remote-fetch oracle to a
`HandlerResult` recording the outbound requests issued, the response
status and the response body.
-/

set_option autoImplicit false

/-- JSON values, as produced by `JSON.parse` / consumed by `JSON.stringify`.
Object fields are kept in insertion order, as JavaScript does. -/
inductive Json where
  | null : Json
  | bool : Bool → Json
  | num : Int → Json
  | str : String → Json
  | arr : List Json → Json
  | obj : List (String × Json) → Json

/-- First-match lookup of a field in a JSON object's field list
(JavaScript property access on a parsed JSON object). -/
def lookupField : List (String × Json) → String → Option Json
  | [], _ => none
  | (k, v) :: rest, key => if k = key then some v else lookupField rest key

/-- Field access on a `Json` value; `none` on non-objects. -/
def Json.getField : Json → String → Option Json
  | .obj fields, key => lookupField fields key
  | _, _ => none

/-- JavaScript truthiness of a JSON value (`if (x)`): `null`, `false`,
`0` and `""` are falsy; arrays and objects are always truthy. -/
def Json.truthy : Json → Bool
  | .null => false
  | .bool b => b
  | .num n => decide (n ≠ 0)
  | .str s => decide (s ≠ "")
  | .arr _ => true
  | .obj _ => true

/-- Truthiness of a possibly-absent value (`undefined` is falsy). -/
def truthyOpt : Option Json → Bool
  | none => false
  | some j => j.truthy

/-- An in-memory uploaded file as multer provides it
(`req.file`: buffer, original name, MIME type). -/
structure FilePart where
  buffer : List Nat
  originalname : String
  mimetype : String

/-- The body attached to an outbound `fetch`: a JSON payload
(`JSON.stringify` of the given value) or a multipart form with one
file field (`form-data`). -/
inductive ReqBody where
  | jsonBody : Json → ReqBody
  | multipart : String → FilePart → ReqBody

/-- An outbound HTTP request as passed to `fetch`. -/
structure OutboundRequest where
  url : String
  method : String
  body : Option ReqBody

/-- Outcome of one outbound `fetch` followed by `response.json()`:
either a status code with a decoded JSON body, or a failure (connection
error, timeout, or `response.json()` throwing on a non-JSON body). -/
inductive FetchOutcome where
  | success : Nat → Json → FetchOutcome
  | failure : String → FetchOutcome

/-- What a proxy handler did: the outbound requests it issued (in
order) and the HTTP response it sent back. -/
structure HandlerResult where
  outbound : List OutboundRequest
  status : Nat
  body : Json

/-- `const N8N_BASE_URL = process.env.N8N_URL || 'https://n8n.seedfarm.co.kr/webhook'`
(default value; the environment override is outside the model). -/
def N8N_BASE_URL : String := "https://n8n.seedfarm.co.kr/webhook"

/-- The hint string attached by the capture-analyze and
disease-diagnosis error handlers. -/
def unreachableHint : String := "n8n 서버에 연결할 수 없습니다. 서버 상태를 확인해주세요."

/-- The forward/relay/catch step shared by every proxy route:
`const response = await fetch(...); const data = await response.json();
res.status(response.status).json(data);` with the route's `catch` block
sending 500 and the route's error body. -/
def relayRemote (fwd : OutboundRequest)
    (remote : OutboundRequest → FetchOutcome)
    (errBody : String → Json) : HandlerResult :=
  match remote fwd with
  | .success st j => { outbound := [fwd], status := st, body := j }
  | .failure msg => { outbound := [fwd], status := 500, body := errBody msg }

/-- `proxyFormData(req, res, targetPath)`: forwards a multer-parsed file
upload to the n8n server as multipart form data; 400 when `req.file` is
absent, 500 with error message and hint when the forward fails. -/
def proxyFormData (file : Option FilePart) (targetPath : String)
    (remote : OutboundRequest → FetchOutcome) : HandlerResult :=
  match file with
  | none =>
    { outbound := [], status := 400,
      body := .obj [("success", .bool false),
        ("error", .str "이미지 파일이 필요합니다. FormData의 \"image\" 필드에 파일을 첨부해주세요.")] }
  | some f =>
    relayRemote
      { url := N8N_BASE_URL ++ targetPath, method := "POST",
        body := some (.multipart "image" f) }
      remote
      (fun msg => .obj [("success", .bool false), ("error", .str msg),
        ("hint", .str unreachableHint)])

/-- The `POST /proxy/capture-analyze` route:
`proxyFormData(req, res, '/capture-analyze')`. -/
def captureAnalyzeHandler (file : Option FilePart)
    (remote : OutboundRequest → FetchOutcome) : HandlerResult :=
  proxyFormData file "/capture-analyze" remote

/-- The `POST /proxy/disease-diagnosis` handler: destructures `image`
and `mimeType` from the JSON body, 400 when `image` is falsy, otherwise
forwards `{image, mimeType: mimeType || 'image/jpeg'}` as JSON; 500 with
error message and hint when the forward fails. -/
def diseaseDiagnosisHandler (reqBody : List (String × Json))
    (remote : OutboundRequest → FetchOutcome) : HandlerResult :=
  let image := lookupField reqBody "image"
  let mimeType := lookupField reqBody "mimeType"
  if truthyOpt image then
    relayRemote
      { url := N8N_BASE_URL ++ "/disease-diagnosis", method := "POST",
        body := some (.jsonBody (.obj [("image", image.getD .null),
          ("mimeType", if truthyOpt mimeType then mimeType.getD .null
            else .str "image/jpeg")])) }
      remote
      (fun msg => .obj [("success", .bool false), ("error", .str msg),
        ("hint", .str unreachableHint)])
  else
    { outbound := [], status := 400,
      body := .obj [("success", .bool false),
        ("error", .str "Base64 인코딩된 이미지가 필요합니다. JSON body의 \"image\" 필드를 확인해주세요.")] }

/-- The `POST /proxy/chat-message` handler: destructures `message` from
the JSON body, 400 when falsy, otherwise forwards `{message}` as JSON
(dropping every other incoming field); 500 with the error message — and
no hint — when the forward fails. -/
def chatMessageHandler (reqBody : List (String × Json))
    (remote : OutboundRequest → FetchOutcome) : HandlerResult :=
  let message := lookupField reqBody "message"
  if truthyOpt message then
    relayRemote
      { url := N8N_BASE_URL ++ "/chat-message", method := "POST",
        body := some (.jsonBody (.obj [("message", message.getD .null)])) }
      remote
      (fun msg => .obj [("success", .bool false), ("error", .str msg)])
  else
    { outbound := [], status := 400,
      body := .obj [("success", .bool false), ("error", .str "메시지가 필요합니다.")] }

/-- Removal of the first occurrence of `pat` from a character list —
the semantics of JavaScript `s.replace(pat, '')` with a string pattern. -/
def removeFirstSub (pat : List Char) : List Char → List Char
  | [] => []
  | c :: cs =>
    if pat.isPrefixOf (c :: cs) then (c :: cs).drop pat.length
    else c :: removeFirstSub pat cs

/-- JavaScript `s.replace(pat, '')`: removes the first occurrence of
`pat` (if any) from `s`. -/
def jsReplaceFirst (s pat : String) : String :=
  String.mk (removeFirstSub pat.data s.data)

/-- The generic `ALL /proxy/*` handler: strips the `/proxy` prefix from
the path, forwards the incoming method to the n8n base URL, attaching
the JSON-serialized incoming body exactly when the method is not `GET`
and a (truthy, i.e. present) parsed body exists; relays the remote
status and decoded body, or responds 500 with the error message (no
hint) when the forward fails. -/
def genericProxyHandler (method : String) (path : String)
    (reqBody : Option (List (String × Json)))
    (remote : OutboundRequest → FetchOutcome) : HandlerResult :=
  let targetPath := jsReplaceFirst path "/proxy"
  let url := N8N_BASE_URL ++ targetPath
  let body : Option ReqBody :=
    match reqBody with
    | some b => if method = "GET" then none else some (.jsonBody (.obj b))
    | none => none
  relayRemote { url := url, method := method, body := body } remote
    (fun msg => .obj [("success", .bool false), ("error", .str msg)])

/-- `const BASE_URL = 'https://n8n.seedfarm.co.kr/webhook'` — the client
library's base address, bound once at module load. -/
def BASE_URL : String := "https://n8n.seedfarm.co.kr/webhook"

/-- The uppercase hexadecimal digits, as used by `encodeURIComponent`'s
percent escapes. -/
def hexDigits : List Char :=
  ['0', '1', '2', '3', '4', '5', '6', '7', '8', '9', 'A', 'B', 'C', 'D', 'E', 'F']

/-- The `n`-th uppercase hexadecimal digit (meaningful for `n < 16`). -/
def hexDigit (n : Nat) : Char := (hexDigits.get? n).getD '0'

/-- UTF-8 encoding of one character, as `encodeURIComponent` applies it
before percent-escaping. -/
def utf8Bytes (c : Char) : List Nat :=
  let n := c.toNat
  if n < 128 then [n]
  else if n < 2048 then [192 + n / 64, 128 + n % 64]
  else if n < 65536 then [224 + n / 4096, 128 + (n / 64) % 64, 128 + n % 64]
  else [240 + n / 262144, 128 + (n / 4096) % 64, 128 + (n / 64) % 64, 128 + n % 64]

/-- The percent escape `%XY` of one byte. -/
def percentEncodeByte (b : Nat) : List Char :=
  ['%', hexDigit (b / 16), hexDigit (b % 16)]

/-- The characters `encodeURIComponent` leaves unescaped:
`A-Z a-z 0-9 - _ . ! ~ * ' ( )`. -/
def isUnreservedURI (c : Char) : Bool :=
  c.isAlpha || c.isDigit || c == '-' || c == '_' || c == '.' || c == '!' ||
    c == '~' || c == '*' || c == Char.ofNat 39 || c == '(' || c == ')'

/-- Encoding of one character: kept verbatim if unreserved, otherwise
each UTF-8 byte is percent-escaped. -/
def encodeURIComponentChar (c : Char) : List Char :=
  if isUnreservedURI c then [c] else (utf8Bytes c).flatMap percentEncodeByte

/-- JavaScript's `encodeURIComponent`. -/
def encodeURIComponent (s : String) : String :=
  String.mk (s.data.flatMap encodeURIComponentChar)

/-- What the client sees of one `fetch`: the response status and the
outcome of `response.json()` (decoded value or a decoding failure). -/
structure ClientResponse where
  status : Nat
  decoded : Except String Json

/-- `await fetch(req); return response.json()` — issues exactly the one
request and returns its decoded body, with no branch on the status and
no retry. The pair records the requests issued and the returned value. -/
def clientFetch (req : OutboundRequest)
    (respond : OutboundRequest → ClientResponse) :
    List OutboundRequest × Except String Json :=
  ([req], (respond req).decoded)

/-- Request built by `getRealtimeData()`. -/
def getRealtimeDataRequest : OutboundRequest :=
  { url := BASE_URL ++ "/data-realtime", method := "GET", body := none }

/-- `getRealtimeData()`. -/
def getRealtimeData (respond : OutboundRequest → ClientResponse) :
    List OutboundRequest × Except String Json :=
  clientFetch getRealtimeDataRequest respond

/-- The body object built by `sendChatMessage`:
`const body = { message }; if (sessionId) body.session_id = sessionId;`
(`sessionId` defaults to `null`; the empty string is falsy). -/
def sendChatMessageBody (message : String) (sessionId : Option String) :
    List (String × Json) :=
  let base := [("message", Json.str message)]
  match sessionId with
  | none => base
  | some s => if s = "" then base else base ++ [("session_id", Json.str s)]

/-- Request built by `sendChatMessage(message, sessionId)`. -/
def sendChatMessageRequest (message : String) (sessionId : Option String) :
    OutboundRequest :=
  { url := BASE_URL ++ "/chat-message", method := "POST",
    body := some (.jsonBody (.obj (sendChatMessageBody message sessionId))) }

/-- `sendChatMessage(message, sessionId = null)`. -/
def sendChatMessage (message : String) (sessionId : Option String)
    (respond : OutboundRequest → ClientResponse) :
    List OutboundRequest × Except String Json :=
  clientFetch (sendChatMessageRequest message sessionId) respond

/-- Request built by `getChatHistoryDetail(threadId)`; the thread id is
passed through `encodeURIComponent`. -/
def getChatHistoryDetailRequest (threadId : String) : OutboundRequest :=
  { url := BASE_URL ++ "/chat-message/history/detail?threadId=" ++
      encodeURIComponent threadId,
    method := "GET", body := none }

/-- `getChatHistoryDetail(threadId)`. -/
def getChatHistoryDetail (threadId : String)
    (respond : OutboundRequest → ClientResponse) :
    List OutboundRequest × Except String Json :=
  clientFetch (getChatHistoryDetailRequest threadId) respond

/-- Request built by `deleteChatHistory(threadId)`; the thread id is
passed through `encodeURIComponent`. -/
def deleteChatHistoryRequest (threadId : String) : OutboundRequest :=
  { url := BASE_URL ++ "/chat-message/history/delete?threadId=" ++
      encodeURIComponent threadId,
    method := "DELETE", body := none }

/-- `deleteChatHistory(threadId)`. -/
def deleteChatHistory (threadId : String)
    (respond : OutboundRequest → ClientResponse) :
    List OutboundRequest × Except String Json :=
  clientFetch (deleteChatHistoryRequest threadId) respond

/-- Outcome of the underlying `FileReader.readAsDataURL` read: the
`reader.result` data URL on load, or the read error. -/
inductive ReadOutcome where
  | success : String → ReadOutcome
  | failure : String → ReadOutcome

/-- Splitting a character list at every occurrence of `sep` —
the semantics of JavaScript `s.split(sep)`. -/
def splitChar (sep : Char) : List Char → List (List Char)
  | [] => [[]]
  | c :: cs =>
    if c = sep then [] :: splitChar sep cs
    else
      match splitChar sep cs with
      | [] => [[c]]
      | h :: t => (c :: h) :: t

/-- JavaScript `s.split(sep)` for a one-character separator. -/
def jsSplit (sep : Char) (s : String) : List String :=
  (splitChar sep s.data).map String.mk

/-- `fileToBase64(file)`: resolves with `reader.result.split(',')[1]`
on load (`none` models JavaScript `undefined` when no comma exists) and
rejects with the read error on failure. -/
def fileToBase64 (outcome : ReadOutcome) : Except String (Option String) :=
  match outcome with
  | .success r => .ok ((jsSplit ',' r).get? 1)
  | .failure e => .error e

/-- The module-level mutable surface the client library exposes
(only the base address). -/
structure ClientState where
  baseUrl : String

/-- The client state as initialized at module load. -/
def initialClientState : ClientState := { baseUrl := BASE_URL }

/-- Result of calling `setBaseUrl`: the (unchanged) state and the
console warnings emitted. -/
structure SetBaseUrlEffect where
  state : ClientState
  warnings : List String

/-- `setBaseUrl(url)`: ignores its argument, mutates nothing, and emits
one `console.warn`. -/
def setBaseUrl (url : String) (st : ClientState) : SetBaseUrlEffect :=
  { state := st,
    warnings := ["setBaseUrl은 현재 구현되지 않았습니다. BASE_URL을 직접 수정하세요."] }

/-! ### Helper lemmas -/

theorem removeFirstSub_prefix_drop (pat l : List Char)
    (h : pat.isPrefixOf l = true) :
    removeFirstSub pat l = l.drop pat.length := by
  cases l with
  | nil =>
    rw [List.isPrefixOf_iff_prefix, List.prefix_nil] at h
    subst h
    rfl
  | cons c cs =>
    simp only [removeFirstSub, h, if_true]

theorem splitChar_of_not_mem (sep : Char) (l : List Char) (h : sep ∉ l) :
    splitChar sep l = [l] := by
  induction l with
  | nil => rfl
  | cons c cs ih =>
    have hc : ¬c = sep := fun e => h (by simp [e])
    have hcs : sep ∉ cs := fun m => h (List.mem_cons_of_mem _ m)
    simp only [splitChar, if_neg hc, ih hcs]

theorem splitChar_append (sep : Char) (a b : List Char) (h : sep ∉ a) :
    splitChar sep (a ++ sep :: b) = a :: splitChar sep b := by
  induction a with
  | nil => simp [splitChar]
  | cons c cs ih =>
    have hc : ¬c = sep := fun e => h (by simp [e])
    have hcs : sep ∉ cs := fun m => h (List.mem_cons_of_mem _ m)
    simp only [List.cons_append, splitChar, List.append_eq, if_neg hc, ih hcs]

theorem hexDigit_mem_hexDigits (n : Nat) : hexDigit n ∈ hexDigits := by
  unfold hexDigit
  cases h : hexDigits.get? n with
  | none => decide
  | some c => simpa using List.get?_mem h

theorem mem_hexDigits_sepFree :
    ∀ d ∈ hexDigits, (d != '&' && d != '?' && d != '=') = true := by decide

theorem isUnreservedURI_ne (c : Char) (h : isUnreservedURI c = true) :
    c ≠ '&' ∧ c ≠ '?' ∧ c ≠ '=' := by
  refine ⟨?_, ?_, ?_⟩ <;> rintro rfl <;> exact absurd h (by decide)

theorem encodeURIComponentChar_sepFree (c : Char) :
    (encodeURIComponentChar c).all (fun d => d != '&' && d != '?' && d != '=') = true := by
  unfold encodeURIComponentChar
  by_cases h : isUnreservedURI c = true
  · rw [if_pos h]
    obtain ⟨h1, h2, h3⟩ := isUnreservedURI_ne c h
    simp [h1, h2, h3]
  · rw [if_neg h, List.all_eq_true]
    intro x hx
    rw [List.mem_flatMap] at hx
    obtain ⟨b, _, hxb⟩ := hx
    simp only [percentEncodeByte, List.mem_cons, List.not_mem_nil, or_false] at hxb
    rcases hxb with rfl | rfl | rfl
    · decide
    · exact mem_hexDigits_sepFree _ (hexDigit_mem_hexDigits _)
    · exact mem_hexDigits_sepFree _ (hexDigit_mem_hexDigits _)

theorem relayRemote_outbound (fwd : OutboundRequest)
    (remote : OutboundRequest → FetchOutcome) (errBody : String → Json) :
    (relayRemote fwd remote errBody).outbound = [fwd] := by
  unfold relayRemote
  cases remote fwd <;> rfl

theorem relayRemote_success (fwd : OutboundRequest)
    (remote : OutboundRequest → FetchOutcome) (errBody : String → Json)
    (st : Nat) (j : Json) (h : remote fwd = .success st j) :
    (relayRemote fwd remote errBody).status = st ∧
    (relayRemote fwd remote errBody).body = j := by
  unfold relayRemote
  rw [h]
  exact ⟨rfl, rfl⟩

theorem relayRemote_failure (fwd : OutboundRequest)
    (remote : OutboundRequest → FetchOutcome) (errBody : String → Json)
    (msg : String) (h : remote fwd = .failure msg) :
    (relayRemote fwd remote errBody).status = 500 ∧
    (relayRemote fwd remote errBody).body = errBody msg ∧
    (relayRemote fwd remote errBody).outbound = [fwd] := by
  unfold relayRemote
  rw [h]
  exact ⟨rfl, rfl, rfl⟩

theorem encodeURIComponent_sepFree (s : String) :
    (encodeURIComponent s).data.all (fun d => d != '&' && d != '?' && d != '=') = true := by
  rw [show (encodeURIComponent s).data = s.data.flatMap encodeURIComponentChar from rfl,
    List.all_eq_true]
  intro x hx
  rw [List.mem_flatMap] at hx
  obtain ⟨c, _, hxc⟩ := hx
  have h := encodeURIComponentChar_sepFree c
  rw [List.all_eq_true] at h
  exact h x hxc

/-! ### Claim theorems -/

/-- C10: for every message `m`, `sendChatMessage(m, "")` serializes the
body as exactly `{"message": m}` with no `session_id` key — the empty
string is treated the same as an omitted session id. -/
theorem sendChatMessage_empty_session_body (m : String) :
    sendChatMessageBody m (some "") = [("message", Json.str m)] ∧
    (sendChatMessageRequest m (some "")).body =
      some (.jsonBody (.obj [("message", Json.str m)])) := by
  constructor <;> simp [sendChatMessageBody, sendChatMessageRequest]

/-- C4 counterexample: at `m = "hi"`, `s = ""`, the body is
`{"message": "hi"}`, not `{"message": "hi", "session_id": ""}` — the
claim's universal quantification over every session id string fails at
the empty string. -/
theorem sendChatMessage_session_counterexample :
    ¬ sendChatMessageBody "hi" (some "") =
      [("message", Json.str "hi"), ("session_id", Json.str "")] := by
  intro h
  simp [sendChatMessageBody] at h

/-- C4 (amended): for every message `m` and every non-empty session id
`s`, the body is exactly `{"message": m, "session_id": s}` in that
order; when the session id is omitted (or null, or the empty string —
any falsy value), the body is exactly `{"message": m}` with no
`session_id` key. -/
theorem sendChatMessage_body_exact_fields (m s : String) :
    (s ≠ "" → sendChatMessageBody m (some s) =
      [("message", Json.str m), ("session_id", Json.str s)]) ∧
    sendChatMessageBody m none = [("message", Json.str m)] ∧
    (sendChatMessageRequest m none).method = "POST" ∧
    (sendChatMessageRequest m none).url = BASE_URL ++ "/chat-message" := by
  refine ⟨fun h => ?_, rfl, rfl, rfl⟩
  simp [sendChatMessageBody, h]

/-- C4 witness: `sendChatMessage("hi", "s1")` serializes to
`{"message":"hi","session_id":"s1"}`. -/
theorem sendChatMessage_body_exact_fields_witness :
    sendChatMessageBody "hi" (some "s1") =
      [("message", Json.str "hi"), ("session_id", Json.str "s1")] :=
  (sendChatMessage_body_exact_fields "hi" "s1").1 (by decide)

/-- C6: `setBaseUrl(url)` leaves the state unchanged and only emits a
warning; every client request is still built against the module-level
`BASE_URL` bound at load time. -/
theorem setBaseUrl_inert (url : String) (st : ClientState) :
    (setBaseUrl url st).state = st ∧
    (setBaseUrl url st).warnings =
      ["setBaseUrl은 현재 구현되지 않았습니다. BASE_URL을 직접 수정하세요."] ∧
    (setBaseUrl url initialClientState).state.baseUrl = BASE_URL ∧
    getRealtimeDataRequest.url = BASE_URL ++ "/data-realtime" ∧
    (∀ m sid, (sendChatMessageRequest m sid).url = BASE_URL ++ "/chat-message") ∧
    (∀ tid, (deleteChatHistoryRequest tid).url =
      BASE_URL ++ "/chat-message/history/delete?threadId=" ++ encodeURIComponent tid) :=
  ⟨rfl, rfl, rfl, rfl, fun _ _ => rfl, fun _ => rfl⟩

/-- C9: `getChatHistoryDetail` and `deleteChatHistory` build their URLs
with the thread id percent-encoded by `encodeURIComponent`, whose output
never contains `&`, `?` or `=`, so a thread id cannot introduce extra
query parameters. -/
theorem threadId_percent_encoded (threadId : String) :
    (getChatHistoryDetailRequest threadId).url =
      BASE_URL ++ "/chat-message/history/detail?threadId=" ++
        encodeURIComponent threadId ∧
    (deleteChatHistoryRequest threadId).url =
      BASE_URL ++ "/chat-message/history/delete?threadId=" ++
        encodeURIComponent threadId ∧
    (encodeURIComponent threadId).data.all
      (fun d => d != '&' && d != '?' && d != '=') = true :=
  ⟨rfl, rfl, encodeURIComponent_sepFree threadId⟩

/-- C5: for a read completing with a data URI
`data:<mime>;base64,<payload>` (base64 payloads and MIME types contain
no comma), `fileToBase64` resolves to exactly the payload after the
first comma; a failed read rejects with the read error. -/
theorem fileToBase64_strips_dataUri :
    (∀ mime payload : String, ',' ∉ mime.data → ',' ∉ payload.data →
      fileToBase64 (.success ("data:" ++ mime ++ ";base64," ++ payload)) =
        .ok (some payload)) ∧
    (∀ e, fileToBase64 (.failure e) = .error e) := by
  constructor
  · intro mime payload hm hp
    obtain ⟨pl⟩ := payload
    have hdata : ("data:" ++ mime ++ ";base64," ++ String.mk pl).data
        = (("data:".data ++ mime.data) ++ ";base64".data) ++ ',' :: pl := by
      simp only [String.data_append]
      simp
    have hpre : ',' ∉ (("data:".data ++ mime.data) ++ ";base64".data) := by
      intro hmem
      rcases List.mem_append.mp hmem with h1 | h1
      · rcases List.mem_append.mp h1 with h2 | h2
        · exact absurd h2 (by decide)
        · exact hm h2
      · exact absurd h1 (by decide)
    show Except.ok ((jsSplit ',' _).get? 1) = _
    rw [jsSplit, hdata, splitChar_append _ _ _ hpre,
      splitChar_of_not_mem _ _ hp]
    rfl
  · intro e
    rfl

/-- C5 witness: a concrete data URI read and a concrete failed read. -/
theorem fileToBase64_strips_dataUri_witness :
    fileToBase64 (.success ("data:" ++ "image/png" ++ ";base64," ++ "QUJD")) =
      .ok (some "QUJD") ∧
    fileToBase64 (.failure "read error") = .error "read error" :=
  ⟨fileToBase64_strips_dataUri.1 "image/png" "QUJD" (by decide) (by decide),
   fileToBase64_strips_dataUri.2 "read error"⟩

/-- C7: the client endpoint functions return the decoded JSON body of
the single request they issue, for every response status; two response
environments that agree on decoded bodies (but may differ in status)
give identical results, and a decoding/network failure propagates as
the error with no retry. -/
theorem client_returns_body_ignoring_status
    (respond : OutboundRequest → ClientResponse) (m tid : String)
    (sid : Option String) :
    (getRealtimeData respond).2 = (respond getRealtimeDataRequest).decoded ∧
    (sendChatMessage m sid respond).2 =
      (respond (sendChatMessageRequest m sid)).decoded ∧
    (deleteChatHistory tid respond).2 =
      (respond (deleteChatHistoryRequest tid)).decoded ∧
    (getRealtimeData respond).1 = [getRealtimeDataRequest] ∧
    (sendChatMessage m sid respond).1 = [sendChatMessageRequest m sid] ∧
    (deleteChatHistory tid respond).1 = [deleteChatHistoryRequest tid] ∧
    (∀ respond2 : OutboundRequest → ClientResponse,
      (∀ q, (respond2 q).decoded = (respond q).decoded) →
      getRealtimeData respond2 = getRealtimeData respond ∧
      sendChatMessage m sid respond2 = sendChatMessage m sid respond ∧
      deleteChatHistory tid respond2 = deleteChatHistory tid respond) ∧
    (∀ e, (respond getRealtimeDataRequest).decoded = .error e →
      (getRealtimeData respond).2 = .error e) := by
  refine ⟨rfl, rfl, rfl, rfl, rfl, rfl, fun respond2 hagree => ?_, fun e he => he⟩
  refine ⟨?_, ?_, ?_⟩ <;>
    simp [getRealtimeData, sendChatMessage, deleteChatHistory, clientFetch, hagree]

/-- C7 witness: a concrete environment answering status 404 with a
decoded body still has its body returned; changing every status to 500
while keeping bodies leaves the result unchanged; a decoding error
propagates. -/
theorem client_returns_body_ignoring_status_witness :
    (getRealtimeData (fun _ => ⟨404, .ok (Json.str "ok")⟩)).2 =
      .ok (Json.str "ok") ∧
    getRealtimeData (fun _ => ⟨500, .ok (Json.str "ok")⟩) =
      getRealtimeData (fun _ => ⟨404, .ok (Json.str "ok")⟩) ∧
    (getRealtimeData (fun _ => ⟨200, .error "invalid json"⟩)).2 =
      .error "invalid json" := by
  obtain ⟨h1, -, -, -, -, -, hind, -⟩ :=
    client_returns_body_ignoring_status
      (fun _ => ⟨404, .ok (Json.str "ok")⟩) "hi" "t1" none
  obtain ⟨-, -, -, -, -, -, -, herr⟩ :=
    client_returns_body_ignoring_status
      (fun _ => ⟨200, .error "invalid json"⟩) "hi" "t1" none
  exact ⟨h1, (hind (fun _ => ⟨500, .ok (Json.str "ok")⟩) (fun _ => rfl)).1,
    herr "invalid json" rfl⟩

/-- C8: for every incoming chat-message body containing a non-empty
`message` string, the forwarded body is exactly `{"message": m}` —
every other incoming field, `session_id` included, is dropped. -/
theorem chat_proxy_forwards_only_message (fields : List (String × Json))
    (m : String) (remote : OutboundRequest → FetchOutcome)
    (hm : lookupField fields "message" = some (Json.str m)) (hne : m ≠ "") :
    (chatMessageHandler fields remote).outbound =
      [{ url := N8N_BASE_URL ++ "/chat-message", method := "POST",
         body := some (.jsonBody (.obj [("message", Json.str m)])) }] := by
  unfold chatMessageHandler
  rw [hm]
  simp only [truthyOpt, Json.truthy, Option.getD_some]
  rw [if_pos (by simpa using hne)]
  exact relayRemote_outbound _ _ _

/-- C8 witness: an incoming body carrying both `message` and
`session_id` forwards only the message field. -/
theorem chat_proxy_forwards_only_message_witness :
    (chatMessageHandler
      [("message", Json.str "hi"), ("session_id", Json.str "s1")]
      (fun _ => .success 200 Json.null)).outbound =
      [{ url := N8N_BASE_URL ++ "/chat-message", method := "POST",
         body := some (.jsonBody (.obj [("message", Json.str "hi")])) }] :=
  chat_proxy_forwards_only_message
    [("message", Json.str "hi"), ("session_id", Json.str "s1")] "hi"
    (fun _ => .success 200 Json.null) rfl (by decide)

/-- C1: each typed proxy route answers 400 with a JSON error and issues
no outbound request when its required field (`req.file`, `image`,
`message`) is absent, and an outbound request is only ever issued when
the required field is present. -/
theorem typed_proxy_validates_required_field
    (remote : OutboundRequest → FetchOutcome) (body : List (String × Json))
    (file : Option FilePart) :
    ((captureAnalyzeHandler none remote).status = 400 ∧
     (captureAnalyzeHandler none remote).outbound = [] ∧
     (captureAnalyzeHandler none remote).body.getField "error" =
       some (.str "이미지 파일이 필요합니다. FormData의 \"image\" 필드에 파일을 첨부해주세요.")) ∧
    ((captureAnalyzeHandler file remote).outbound ≠ [] → file.isSome = true) ∧
    (lookupField body "image" = none →
      (diseaseDiagnosisHandler body remote).status = 400 ∧
      (diseaseDiagnosisHandler body remote).outbound = [] ∧
      (diseaseDiagnosisHandler body remote).body.getField "error" =
        some (.str "Base64 인코딩된 이미지가 필요합니다. JSON body의 \"image\" 필드를 확인해주세요.")) ∧
    ((diseaseDiagnosisHandler body remote).outbound ≠ [] →
      (lookupField body "image").isSome = true) ∧
    (lookupField body "message" = none →
      (chatMessageHandler body remote).status = 400 ∧
      (chatMessageHandler body remote).outbound = [] ∧
      (chatMessageHandler body remote).body.getField "error" =
        some (.str "메시지가 필요합니다.")) ∧
    ((chatMessageHandler body remote).outbound ≠ [] →
      (lookupField body "message").isSome = true) := by
  refine ⟨⟨rfl, rfl, rfl⟩, ?_, ?_, ?_, ?_, ?_⟩
  · intro hne
    cases file with
    | none => exact absurd rfl hne
    | some f => rfl
  · intro h
    have he : diseaseDiagnosisHandler body remote =
        { outbound := [], status := 400,
          body := .obj [("success", .bool false),
            ("error", .str "Base64 인코딩된 이미지가 필요합니다. JSON body의 \"image\" 필드를 확인해주세요.")] } := by
      unfold diseaseDiagnosisHandler
      rw [h]
      rfl
    rw [he]
    exact ⟨rfl, rfl, rfl⟩
  · intro hne
    cases hk : lookupField body "image" with
    | none =>
      refine absurd ?_ hne
      show (diseaseDiagnosisHandler body remote).outbound = []
      unfold diseaseDiagnosisHandler
      rw [hk]
      rfl
    | some v => rfl
  · intro h
    have he : chatMessageHandler body remote =
        { outbound := [], status := 400,
          body := .obj [("success", .bool false),
            ("error", .str "메시지가 필요합니다.")] } := by
      unfold chatMessageHandler
      rw [h]
      rfl
    rw [he]
    exact ⟨rfl, rfl, rfl⟩
  · intro hne
    cases hk : lookupField body "message" with
    | none =>
      refine absurd ?_ hne
      show (chatMessageHandler body remote).outbound = []
      unfold chatMessageHandler
      rw [hk]
      rfl
    | some v => rfl

/-- C1 witness: with an empty body and no file, all three typed routes
answer 400 and issue no outbound request. -/
theorem typed_proxy_validates_required_field_witness :
    (captureAnalyzeHandler none (fun _ => .failure "down")).status = 400 ∧
    (captureAnalyzeHandler none (fun _ => .failure "down")).outbound = [] ∧
    (diseaseDiagnosisHandler [] (fun _ => .failure "down")).status = 400 ∧
    (diseaseDiagnosisHandler [] (fun _ => .failure "down")).outbound = [] ∧
    (chatMessageHandler [] (fun _ => .failure "down")).status = 400 ∧
    (chatMessageHandler [] (fun _ => .failure "down")).outbound = [] := by
  obtain ⟨⟨h1, h2, -⟩, -, hd, -, hc, -⟩ :=
    typed_proxy_validates_required_field (fun _ => .failure "down") [] none
  obtain ⟨h3, h4, -⟩ := hd rfl
  obtain ⟨h5, h6, -⟩ := hc rfl
  exact ⟨h1, h2, h3, h4, h5, h6⟩

/-- C2: the generic proxy forwards one request to the n8n base address
plus the path with the `/proxy` prefix removed, with the incoming
method, attaching the JSON body exactly when the method is not GET and
a body is present, and relays the remote status and decoded body on a
successful forward. -/
theorem generic_proxy_forwarding (method path : String)
    (reqBody : Option (List (String × Json)))
    (remote : OutboundRequest → FetchOutcome)
    (h : List.isPrefixOf "/proxy".data path.data = true) :
    ∃ fwd : OutboundRequest,
      (genericProxyHandler method path reqBody remote).outbound = [fwd] ∧
      fwd.url = N8N_BASE_URL ++ String.mk (path.data.drop 6) ∧
      fwd.method = method ∧
      (fwd.body = none ↔ (method = "GET" ∨ reqBody = none)) ∧
      (∀ b, reqBody = some b → method ≠ "GET" →
        fwd.body = some (.jsonBody (.obj b))) ∧
      (∀ st j, remote fwd = .success st j →
        (genericProxyHandler method path reqBody remote).status = st ∧
        (genericProxyHandler method path reqBody remote).body = j) := by
  have hlen : ("/proxy".data).length = 6 := by decide
  have hurl : jsReplaceFirst path "/proxy" = String.mk (path.data.drop 6) := by
    unfold jsReplaceFirst
    rw [removeFirstSub_prefix_drop _ _ h, hlen]
  refine ⟨{ url := N8N_BASE_URL ++ jsReplaceFirst path "/proxy",
            method := method,
            body := match reqBody with
              | some b => if method = "GET" then none
                  else some (.jsonBody (.obj b))
              | none => none },
    relayRemote_outbound _ _ _, by rw [hurl], rfl, ?_, ?_, ?_⟩
  · cases reqBody with
    | none => simp
    | some b =>
      by_cases hm : method = "GET"
      · simp [hm]
      · simp [hm]
  · intro b hb hmne
    subst hb
    simp [if_neg hmne]
  · intro st j hr
    exact relayRemote_success _ _ _ _ _ hr

/-- C2 witness: `PUT /proxy/foo/bar` forwards `PUT` to
`<base>/foo/bar` and relays the remote's 207 status. -/
theorem generic_proxy_forwarding_witness :
    ∃ fwd : OutboundRequest,
      (genericProxyHandler "PUT" "/proxy/foo/bar" none
        (fun _ => .success 207 Json.null)).outbound = [fwd] ∧
      fwd.url = N8N_BASE_URL ++ "/foo/bar" ∧
      fwd.method = "PUT" ∧
      (genericProxyHandler "PUT" "/proxy/foo/bar" none
        (fun _ => .success 207 Json.null)).status = 207 := by
  obtain ⟨fwd, h1, h2, h3, -, -, h6⟩ :=
    generic_proxy_forwarding "PUT" "/proxy/foo/bar" none
      (fun _ => .success 207 Json.null) (by decide)
  have hs : String.mk ("/proxy/foo/bar".data.drop 6) = "/foo/bar" := by decide
  refine ⟨fwd, h1, ?_, h3, (h6 207 Json.null rfl).1⟩
  rw [h2, hs]

/-- C3 counterexample: on a failed forward the chat-message route
answers 500 with the error message but its JSON body has no `hint`
field, contradicting the claim that every proxy route's failure
response carries a hint. -/
theorem proxy_failure_hint_counterexample :
    (chatMessageHandler [("message", Json.str "hi")]
      (fun _ => FetchOutcome.failure "fetch failed")).status = 500 ∧
    (chatMessageHandler [("message", Json.str "hi")]
      (fun _ => FetchOutcome.failure "fetch failed")).body.getField "error" =
      some (Json.str "fetch failed") ∧
    (chatMessageHandler [("message", Json.str "hi")]
      (fun _ => FetchOutcome.failure "fetch failed")).body.getField "hint" =
      none :=
  ⟨rfl, rfl, rfl⟩

/-- C3 (amended): on a failed forward every proxy route answers 500
with a JSON body carrying the underlying error message and issues
exactly one outbound request (no retry); the capture-analyze and
disease-diagnosis routes additionally include the unreachable-server
hint, while the chat-message and generic routes include no hint. -/
theorem proxy_failure_responses (msg : String) (f : FilePart)
    (body : List (String × Json)) (method path : String)
    (reqBody : Option (List (String × Json))) :
    ((captureAnalyzeHandler (some f) (fun _ => .failure msg)).status = 500 ∧
     (captureAnalyzeHandler (some f) (fun _ => .failure msg)).body =
       .obj [("success", .bool false), ("error", .str msg),
         ("hint", .str unreachableHint)] ∧
     (captureAnalyzeHandler (some f) (fun _ => .failure msg)).outbound.length
       = 1) ∧
    (truthyOpt (lookupField body "image") = true →
      (diseaseDiagnosisHandler body (fun _ => .failure msg)).status = 500 ∧
      (diseaseDiagnosisHandler body (fun _ => .failure msg)).body.getField
        "error" = some (.str msg) ∧
      (diseaseDiagnosisHandler body (fun _ => .failure msg)).body.getField
        "hint" = some (.str unreachableHint) ∧
      (diseaseDiagnosisHandler body (fun _ => .failure msg)).outbound.length
        = 1) ∧
    (truthyOpt (lookupField body "message") = true →
      (chatMessageHandler body (fun _ => .failure msg)).status = 500 ∧
      (chatMessageHandler body (fun _ => .failure msg)).body =
        .obj [("success", .bool false), ("error", .str msg)] ∧
      (chatMessageHandler body (fun _ => .failure msg)).body.getField "hint"
        = none ∧
      (chatMessageHandler body (fun _ => .failure msg)).outbound.length
        = 1) ∧
    ((genericProxyHandler method path reqBody (fun _ => .failure msg)).status
       = 500 ∧
     (genericProxyHandler method path reqBody (fun _ => .failure msg)).body =
       .obj [("success", .bool false), ("error", .str msg)] ∧
     (genericProxyHandler method path reqBody
       (fun _ => .failure msg)).body.getField "hint" = none ∧
     (genericProxyHandler method path reqBody
       (fun _ => .failure msg)).outbound.length = 1) := by
  refine ⟨⟨rfl, rfl, rfl⟩, ?_, ?_, ⟨rfl, rfl, rfl, rfl⟩⟩
  · intro ht
    simp only [diseaseDiagnosisHandler, ht, if_true]
    exact ⟨rfl, rfl, rfl, rfl⟩
  · intro ht
    simp only [chatMessageHandler, ht, if_true]
    exact ⟨rfl, rfl, rfl, rfl⟩

/-- C3 witness: with a remote that fails with `ECONNREFUSED`, the
capture route answers 500 with a hint, the diagnosis route's body
carries the hint, the chat route's body has no hint, and the generic
route answers 500. -/
theorem proxy_failure_responses_witness :
    (captureAnalyzeHandler (some ⟨[1], "leaf.jpg", "image/jpeg"⟩)
      (fun _ => .failure "ECONNREFUSED")).status = 500 ∧
    (diseaseDiagnosisHandler
      [("image", Json.str "QUJD"), ("message", Json.str "hello")]
      (fun _ => .failure "ECONNREFUSED")).body.getField "hint" =
      some (.str unreachableHint) ∧
    (chatMessageHandler
      [("image", Json.str "QUJD"), ("message", Json.str "hello")]
      (fun _ => .failure "ECONNREFUSED")).body.getField "hint" = none ∧
    (genericProxyHandler "POST" "/proxy/x" none
      (fun _ => .failure "ECONNREFUSED")).status = 500 := by
  obtain ⟨⟨h1, -, -⟩, hd, hc, hg, -, -⟩ :=
    proxy_failure_responses "ECONNREFUSED" ⟨[1], "leaf.jpg", "image/jpeg"⟩
      [("image", Json.str "QUJD"), ("message", Json.str "hello")]
      "POST" "/proxy/x" none
  obtain ⟨-, -, h2, -⟩ := hd rfl
  obtain ⟨-, -, h3, -⟩ := hc rfl
  exact ⟨h1, h2, h3, hg⟩
